import Mathlib

/-
Verification of the carrier-integration service (UPS shipping-rate
abstraction).  The TypeScript sources are shallowly embedded below:

  * src/http/client.ts          — HttpClient.translateError, extractUpstreamErrors
  * src/carriers/ups/auth.ts    — UpsAuthenticator (token cache, refresh dedup)
  * src/carriers/ups/mapper.ts  — buildUpsRateRequest, mapUpsRatedShipmentToQuote
  * src/carriers/ups/rating.ts  — UpsRatingOperation.execute / parseResponse
  * src/carriers/ups/client.ts  — UpsCarrierClient.getRates (zod validation)
  * src/validation/schemas.ts   — RateRequestSchema
  * src/services/shipping.ts    — ShippingService.shopRates

JavaScript numbers that can be NaN (results of parseFloat) are modelled by
the type JsNum; parseInt results that feed integer arithmetic are modelled
by Option Int (none = NaN, which makes every "<" comparison false, exactly
as NaN does in JavaScript).  Asynchronous behaviour of the authenticator is
modelled as an explicit state machine: the synchronous prefix of
getAccessToken (cache check, pending-promise check, promise creation) is
one atomic step, and the settlement of the single in-flight fetch is a
separate step, mirroring the JavaScript event-loop semantics in which code
between two awaits runs without interleaving.
-/

namespace CarrierService

/-! ### JavaScript number and string primitives -/

/-- Model of a JavaScript number that may be NaN (e.g. a parseFloat result). -/
inductive JsNum where
  | finite (q : ℚ)
  | nan
deriving DecidableEq, Repr

/-- Digit-string to natural number (base 10). -/
def digitsToNat (ds : List Char) : Nat :=
  ds.foldl (fun n c => 10 * n + (c.toNat - 48)) 0

/-- Longest leading run of decimal digits, and the rest. -/
def takeDigits : List Char → List Char × List Char
  | [] => ([], [])
  | c :: cs =>
    if c.isDigit then
      let r := takeDigits cs
      (c :: r.1, r.2)
    else ([], c :: cs)

/-- Drop leading whitespace, as parseFloat / parseInt do. -/
def dropLeadingSpaces : List Char → List Char
  | [] => []
  | c :: cs =>
    if c = ' ' || c = '\t' || c = '\n' || c = '\r' then dropLeadingSpaces cs
    else c :: cs

/-- Optional leading sign; returns the sign factor and the rest. -/
def takeSign : List Char → Int × List Char
  | '-' :: cs => (-1, cs)
  | '+' :: cs => (1, cs)
  | cs => (1, cs)

/-- Exponent suffix of a JavaScript float literal; a malformed exponent part
is ignored (parseFloat takes the longest valid numeric prefix). -/
def parseExponent (cs : List Char) : Int :=
  match cs with
  | 'e' :: rest =>
    let sr := takeSign rest
    let dr := takeDigits sr.2
    if dr.1 = [] then 0 else sr.1 * (digitsToNat dr.1 : Int)
  | 'E' :: rest =>
    let sr := takeSign rest
    let dr := takeDigits sr.2
    if dr.1 = [] then 0 else sr.1 * (digitsToNat dr.1 : Int)
  | _ => 0

/-- Model of JavaScript parseFloat: longest decimal prefix (sign, integer
digits, optional fraction, optional exponent); NaN when no digits occur. -/
def jsParseFloat (s : String) : JsNum :=
  let cs := dropLeadingSpaces s.data
  let sgn := takeSign cs
  let ip := takeDigits sgn.2
  let fr : List Char × List Char :=
    match ip.2 with
    | '.' :: rest => takeDigits rest
    | _ => ([], ip.2)
  if ip.1 = [] ∧ fr.1 = [] then .nan
  else
    let mant : ℚ := (digitsToNat ip.1 : ℚ) + (digitsToNat fr.1 : ℚ) / (10 : ℚ) ^ fr.1.length
    let base : ℚ := (sgn.1 : ℚ) * mant
    let e := parseExponent fr.2
    .finite (if 0 ≤ e then base * (10 : ℚ) ^ e.toNat else base / (10 : ℚ) ^ (-e).toNat)

/-- Model of JavaScript parseInt(s, 10): sign and leading digits; none = NaN. -/
def jsParseIntCore (s : String) : Option Int :=
  let cs := dropLeadingSpaces s.data
  let sgn := takeSign cs
  let dr := takeDigits sgn.2
  if dr.1 = [] then none else some (sgn.1 * (digitsToNat dr.1 : Int))

/-- parseInt applied to a possibly-undefined string (undefined gives NaN). -/
def jsParseIntOpt : Option String → Option Int
  | some s => jsParseIntCore s
  | none => none

/-- Truthiness of a possibly-undefined JavaScript string: undefined and the
empty string are falsy. -/
def strTruthy : Option String → Bool
  | some s => s != ""
  | none => false

/-- The JavaScript expression o || d on a possibly-undefined string o. -/
def jsOr (o : Option String) (d : String) : String :=
  match o with
  | some s => if s = "" then d else s
  | none => d

/-! ### Error taxonomy (src/domain/errors.ts) -/

/-- The closed enumeration CarrierErrorCode. -/
inductive CarrierErrorCode where
  | VALIDATION_ERROR
  | AUTHENTICATION_ERROR
  | AUTHORIZATION_ERROR
  | RATE_LIMIT_ERROR
  | CARRIER_API_ERROR
  | NETWORK_ERROR
  | TIMEOUT_ERROR
  | PARSE_ERROR
  | CONFIGURATION_ERROR
  | UNKNOWN_ERROR
deriving DecidableEq, Repr

/-- CarrierErrorDetails; the constructor defaults retryable to false and the
optional fields to absent, as the TypeScript constructor does. -/
structure CarrierErrorDetails where
  carrier : Option String := none
  httpStatus : Option Nat := none
  upstreamCode : Option String := none
  upstreamMessage : Option String := none
  retryable : Bool := false
deriving DecidableEq, Repr

/-- CarrierError: code, message, details. -/
structure CarrierError where
  code : CarrierErrorCode
  message : String
  details : CarrierErrorDetails
deriving DecidableEq, Repr

/-! ### Domain models (src/domain/models.ts) -/

inductive WeightUnit where
  | LB
  | KG
  | OZ
deriving DecidableEq, Repr

inductive DimensionUnit where
  | IN
  | CM
deriving DecidableEq, Repr

structure PackageWeight where
  value : ℚ
  unit : WeightUnit
deriving DecidableEq, Repr

structure Dimensions where
  length : ℚ
  width : ℚ
  height : ℚ
  unit : DimensionUnit
deriving DecidableEq, Repr

structure Package where
  weight : PackageWeight
  dimensions : Option Dimensions
deriving DecidableEq, Repr

structure Address where
  name : Option String
  addressLines : List String
  city : String
  stateProvinceCode : Option String
  postalCode : String
  countryCode : String
  residential : Option Bool
deriving DecidableEq, Repr

structure RateRequest where
  origin : Address
  destination : Address
  packages : List Package
  serviceCode : Option String
  shipperAccountNumber : Option String
deriving DecidableEq, Repr

structure MonetaryAmount where
  currency : String
  amount : JsNum
deriving DecidableEq, Repr

structure BillingWeight where
  value : JsNum
  unit : WeightUnit
deriving DecidableEq, Repr

/-- RateQuote.  estimatedDeliveryDays is a JavaScript number | undefined
whose number is a parseInt result, hence Option (Option Int) with the inner
none standing for NaN. -/
structure RateQuote where
  carrier : String
  serviceCode : String
  serviceName : String
  totalCharges : MonetaryAmount
  transportationCharges : MonetaryAmount
  serviceOptionsCharges : Option MonetaryAmount
  billingWeight : Option BillingWeight
  guaranteedDelivery : Bool
  estimatedDeliveryDays : Option (Option Int)
  warnings : Option (List String)
deriving DecidableEq, Repr

structure RateResponse where
  quotes : List RateQuote
deriving DecidableEq, Repr

/-! ### UPS wire types (src/carriers/ups/types.ts) -/

structure UpsService where
  Code : String
  Description : Option String
deriving DecidableEq, Repr

structure UpsUnitOfMeasurement where
  Code : String
  Description : Option String
deriving DecidableEq, Repr

structure UpsWeightField where
  UnitOfMeasurement : UpsUnitOfMeasurement
  Weight : String
deriving DecidableEq, Repr

structure UpsCharge where
  CurrencyCode : String
  MonetaryValue : String
deriving DecidableEq, Repr

structure UpsAlert where
  Code : String
  Description : String
deriving DecidableEq, Repr

structure UpsGuaranteedDelivery where
  BusinessDaysInTransit : Option String
  DeliveryByTime : Option String
deriving DecidableEq, Repr

structure UpsEstimatedArrival where
  BusinessDaysInTransit : Option String
deriving DecidableEq, Repr

structure UpsServiceSummary where
  EstimatedArrival : Option UpsEstimatedArrival
deriving DecidableEq, Repr

structure UpsTimeInTransit where
  ServiceSummary : Option UpsServiceSummary
deriving DecidableEq, Repr

structure UpsRatedShipment where
  Service : UpsService
  RatedShipmentAlert : Option (List UpsAlert)
  BillingWeight : UpsWeightField
  TransportationCharges : UpsCharge
  ServiceOptionsCharges : Option UpsCharge
  TotalCharges : UpsCharge
  GuaranteedDelivery : Option UpsGuaranteedDelivery
  TimeInTransit : Option UpsTimeInTransit
deriving DecidableEq, Repr

structure UpsAddress where
  AddressLine : List String
  City : Option String
  StateProvinceCode : Option String
  PostalCode : Option String
  CountryCode : String
deriving DecidableEq, Repr

structure UpsShipToAddress extends UpsAddress where
  ResidentialAddressIndicator : Option String
deriving DecidableEq, Repr

structure UpsDimensions where
  UnitOfMeasurement : UpsUnitOfMeasurement
  Length : String
  Width : String
  Height : String
deriving DecidableEq, Repr

structure UpsPackagingType where
  Code : String
  Description : Option String
deriving DecidableEq, Repr

structure UpsPackage where
  PackagingType : UpsPackagingType
  Dimensions : Option UpsDimensions
  PackageWeight : UpsWeightField
deriving DecidableEq, Repr

/-- ChargeType models the wire field named Type (a Lean keyword). -/
structure UpsShipmentCharge where
  ChargeType : String
  BillShipperAccountNumber : Option String
deriving DecidableEq, Repr

structure UpsPaymentDetails where
  ShipmentCharge : List UpsShipmentCharge
deriving DecidableEq, Repr

structure UpsShipper where
  Name : Option String
  ShipperNumber : Option String
  Address : UpsAddress
deriving DecidableEq, Repr

structure UpsShipTo where
  Name : Option String
  Address : UpsShipToAddress
deriving DecidableEq, Repr

structure UpsShipFrom where
  Name : Option String
  Address : UpsAddress
deriving DecidableEq, Repr

/-- The "object or array of objects" shape of the wire Package field. -/
inductive SingleOrArray (α : Type) where
  | single (a : α)
  | array (l : List α)
deriving DecidableEq, Repr

structure UpsShipment where
  Shipper : UpsShipper
  ShipTo : UpsShipTo
  ShipFrom : UpsShipFrom
  Service : Option UpsService
  Package : SingleOrArray UpsPackage
  PaymentDetails : Option UpsPaymentDetails
  NumOfPieces : Option String
deriving DecidableEq, Repr

/-- UpsRateRequest; Request.TransactionReference.CustomerContext flattened. -/
structure UpsRateRequest where
  CustomerContext : Option String
  Shipment : UpsShipment
deriving DecidableEq, Repr

structure UpsRateRequestWrapper where
  RateRequest : UpsRateRequest
deriving DecidableEq, Repr

/-- Response envelope as seen by parseResponse: the runtime value may miss
the RateResponse field, and RatedShipment may be missing or not an array
(both modelled by none). -/
structure UpsRateResponseData where
  RatedShipment : Option (List UpsRatedShipment)
deriving DecidableEq, Repr

structure UpsRateResponseWrapper where
  RateResponse : Option UpsRateResponseData
deriving DecidableEq, Repr

/-! ### Format mapper, outbound (src/carriers/ups/mapper.ts) -/

/-- The outbound weight-unit lookup table WEIGHT_UNIT_TO_UPS. -/
def WEIGHT_UNIT_TO_UPS : WeightUnit → String
  | .LB => "LBS"
  | .KG => "KGS"
  | .OZ => "OZS"

/-- The outbound dimension-unit lookup table DIMENSION_UNIT_TO_UPS. -/
def DIMENSION_UNIT_TO_UPS : DimensionUnit → String
  | .IN => "IN"
  | .CM => "CM"

/-- The static UPS_SERVICE_CODES table (code to human-readable name). -/
def UPS_SERVICE_CODES (code : String) : Option String :=
  if code = "01" then some "UPS Next Day Air"
  else if code = "02" then some "UPS 2nd Day Air"
  else if code = "03" then some "UPS Ground"
  else if code = "07" then some "UPS Worldwide Express"
  else if code = "08" then some "UPS Worldwide Expedited"
  else if code = "11" then some "UPS Standard"
  else if code = "12" then some "UPS 3 Day Select"
  else if code = "13" then some "UPS Next Day Air Saver"
  else if code = "14" then some "UPS Next Day Air Early"
  else if code = "54" then some "UPS Worldwide Express Plus"
  else if code = "59" then some "UPS 2nd Day Air A.M."
  else if code = "65" then some "UPS Worldwide Saver"
  else if code = "71" then some "UPS Worldwide Express Freight Midday"
  else if code = "72" then some "UPS Worldwide Economy DDP"
  else if code = "75" then some "UPS Heavy Goods"
  else if code = "96" then some "UPS Worldwide Express Freight"
  else none

/-- Rendering of a JavaScript number into a wire decimal string
(Number.prototype.toString).  Its exact decimal syntax is irrelevant to
every claim, so the rational's canonical rendering is used. -/
def numToWireString (q : ℚ) : String :=
  toString q

def mapAddressToUps (addr : Address) : UpsAddress :=
  { AddressLine := addr.addressLines
    City := some addr.city
    StateProvinceCode := addr.stateProvinceCode
    PostalCode := some addr.postalCode
    CountryCode := addr.countryCode }

def mapAddressToUpsShipTo (addr : Address) : UpsShipToAddress :=
  { toUpsAddress := mapAddressToUps addr
    ResidentialAddressIndicator :=
      if addr.residential = some true then some "Y" else none }

def mapDimensionsToUps (dim : Dimensions) : UpsDimensions :=
  { UnitOfMeasurement :=
      { Code := DIMENSION_UNIT_TO_UPS dim.unit
        Description := some (if dim.unit = .IN then "Inches" else "Centimeters") }
    Length := numToWireString dim.length
    Width := numToWireString dim.width
    Height := numToWireString dim.height }

def mapWeightToUps (weight : PackageWeight) : UpsWeightField :=
  { UnitOfMeasurement :=
      { Code := WEIGHT_UNIT_TO_UPS weight.unit
        Description := some (if weight.unit = .LB then "Pounds"
          else if weight.unit = .KG then "Kilograms" else "Ounces") }
    Weight := numToWireString weight.value }

def mapPackageToUps (pkg : Package) : UpsPackage :=
  { PackagingType := { Code := "02", Description := some "Customer Supplied Package" }
    Dimensions := pkg.dimensions.map mapDimensionsToUps
    PackageWeight := mapWeightToUps pkg.weight }

/-- buildUpsRateRequest.  Presence tests mirror JavaScript truthiness
(request.serviceCode ? ... and request.shipperAccountNumber ? ...), under
which an empty string counts as absent; the name fallbacks use the nullish
operator, so an empty name string is kept. -/
def buildUpsRateRequest (request : RateRequest) : UpsRateRequestWrapper :=
  let packages := request.packages.map mapPackageToUps
  { RateRequest :=
    { CustomerContext := some "carrier-integration-service"
      Shipment :=
      { Shipper :=
          { Name := some (request.origin.name.getD "Shipper")
            ShipperNumber := request.shipperAccountNumber
            Address := mapAddressToUps request.origin }
        ShipTo :=
          { Name := some (request.destination.name.getD "Recipient")
            Address := mapAddressToUpsShipTo request.destination }
        ShipFrom :=
          { Name := some (request.origin.name.getD "Shipper")
            Address := mapAddressToUps request.origin }
        Service :=
          if strTruthy request.serviceCode then
            some { Code := request.serviceCode.getD ""
                   Description := UPS_SERVICE_CODES (request.serviceCode.getD "") }
          else none
        Package :=
          match packages with
          | [p] => .single p
          | ps => .array ps
        PaymentDetails :=
          if strTruthy request.shipperAccountNumber then
            some { ShipmentCharge :=
              [{ ChargeType := "01"
                 BillShipperAccountNumber := request.shipperAccountNumber }] }
          else none
        NumOfPieces :=
          if packages.length > 1 then some (toString packages.length) else none } } }

/-! ### Format mapper, inbound (src/carriers/ups/mapper.ts) -/

/-- The inbound weight-unit lookup table UPS_WEIGHT_UNIT_TO_DOMAIN. -/
def UPS_WEIGHT_UNIT_TO_DOMAIN (s : String) : Option WeightUnit :=
  if s = "LBS" then some .LB
  else if s = "KGS" then some .KG
  else if s = "OZS" then some .OZ
  else none

def parseCharge (charge : UpsCharge) : MonetaryAmount :=
  { currency := charge.CurrencyCode
    amount := jsParseFloat charge.MonetaryValue }

/-- The optional chain rated.TimeInTransit?.ServiceSummary?.EstimatedArrival?.BusinessDaysInTransit. -/
def timeInTransitDays (rated : UpsRatedShipment) : Option String :=
  rated.TimeInTransit.bind fun t =>
    t.ServiceSummary.bind fun s =>
      s.EstimatedArrival.bind fun e => e.BusinessDaysInTransit

/-- The estimatedDeliveryDays conditional chain of mapUpsRatedShipmentToQuote. -/
def estimatedDeliveryDaysOf (rated : UpsRatedShipment) : Option (Option Int) :=
  let direct := rated.GuaranteedDelivery.bind fun g => g.BusinessDaysInTransit
  if strTruthy direct then some (jsParseIntOpt direct)
  else if strTruthy (timeInTransitDays rated) then
    some (jsParseIntOpt (timeInTransitDays rated))
  else none

/-- mapUpsRatedShipmentToQuote; the thrown CarrierError becomes an Except
error. -/
def mapUpsRatedShipmentToQuote (rated : UpsRatedShipment) :
    Except CarrierError RateQuote :=
  let serviceCode := rated.Service.Code
  let serviceName :=
    jsOr rated.Service.Description
      (jsOr (UPS_SERVICE_CODES serviceCode) ("UPS Service " ++ serviceCode))
  match UPS_WEIGHT_UNIT_TO_DOMAIN rated.BillingWeight.UnitOfMeasurement.Code with
  | none =>
    .error
      { code := .PARSE_ERROR
        message := "Unknown UPS weight unit: " ++
          rated.BillingWeight.UnitOfMeasurement.Code
        details := { carrier := some "UPS" } }
  | some u =>
    .ok
      { carrier := "UPS"
        serviceCode := serviceCode
        serviceName := serviceName
        totalCharges := parseCharge rated.TotalCharges
        transportationCharges := parseCharge rated.TransportationCharges
        serviceOptionsCharges := rated.ServiceOptionsCharges.map parseCharge
        billingWeight := some
          { value := jsParseFloat rated.BillingWeight.Weight
            unit := u }
        guaranteedDelivery := rated.GuaranteedDelivery.isSome
        estimatedDeliveryDays := estimatedDeliveryDaysOf rated
        warnings := rated.RatedShipmentAlert.map (List.map UpsAlert.Description) }

/-! ### Token manager (src/carriers/ups/auth.ts)

The UpsAuthenticator instance state (cache, pendingRefresh) is embedded as
AuthState, extended with a fetchCount counting started upstream credential
exchanges and a waiters list recording the callers awaiting the in-flight
refresh promise.  getAccessTokenStep is the synchronous prefix of
getAccessToken (everything before the await), which JavaScript runs
atomically; settleRefresh is the settlement of the single fetchToken
promise, which resolves or rejects every waiter with the same outcome and
then clears pendingRefresh (the finally block). -/

structure TokenCache where
  accessToken : String
  expiresAt : Option Int
deriving DecidableEq, Repr

def TOKEN_EXPIRY_BUFFER_MS : Int := 60000

structure AuthState where
  cache : Option TokenCache
  pending : Bool
  waiters : List Nat
  fetchCount : Nat
deriving DecidableEq, Repr

/-- The guard this.cache && Date.now() < this.cache.expiresAt.  A NaN
expiresAt (none) makes the comparison false, as in JavaScript. -/
def cacheValid : Option TokenCache → Int → Bool
  | some c, now =>
    match c.expiresAt with
    | some x => decide (now < x)
    | none => false
  | none, _ => false

/-- Dedup branch of getAccessToken: join the in-flight refresh if one
exists, otherwise start one (this.pendingRefresh = this.fetchToken()). -/
def startOrJoinRefresh (st : AuthState) (caller : Nat) : AuthState :=
  if st.pending then { st with waiters := caller :: st.waiters }
  else
    { st with
        pending := true
        waiters := caller :: st.waiters
        fetchCount := st.fetchCount + 1 }

/-- Synchronous prefix of getAccessToken: return the cached token
immediately when it is still valid, otherwise register on the (possibly
new) in-flight refresh and suspend (result none). -/
def getAccessTokenStep (st : AuthState) (now : Int) (caller : Nat) :
    AuthState × Option (Except CarrierError String) :=
  if cacheValid st.cache now then
    (st, st.cache.map fun c => .ok c.accessToken)
  else
    (startOrJoinRefresh st caller, none)

/-- invalidateToken: clear the cache unconditionally. -/
def invalidateToken (st : AuthState) : AuthState :=
  { st with cache := none }

/-- OAuth wire body; the runtime value may miss any field. -/
structure OAuthTokenResponse where
  access_token : Option String
  token_type : Option String
  issued_at : Option String
  expires_in : Option String
  status : Option String
deriving DecidableEq, Repr

/-- Outcome of the credential exchange performed inside fetchToken:
a 2xx body, a CarrierError translated by HttpClient.post, or some other
thrown value's message. -/
inductive ExchangeOutcome where
  | success (resp : OAuthTokenResponse)
  | carrierFailure (e : CarrierError)
  | jsFailure (msg : String)
deriving DecidableEq, Repr

/-- Cache entry written by a successful fetch: expiresAt =
Date.now() + parseInt(expires_in, 10) * 1000 - TOKEN_EXPIRY_BUFFER_MS. -/
def cacheAfterFetch (now : Int) (tok : String) (expires_in : Option String) :
    TokenCache :=
  { accessToken := tok
    expiresAt := (jsParseIntOpt expires_in).map fun e =>
      now + e * 1000 - TOKEN_EXPIRY_BUFFER_MS }

def missingAccessTokenError : CarrierError :=
  { code := .AUTHENTICATION_ERROR
    message := "UPS OAuth response missing access_token"
    details := { carrier := some "UPS", retryable := true } }

def authWrappedError (cause : String) : CarrierError :=
  { code := .AUTHENTICATION_ERROR
    message := "UPS authentication failed: " ++ cause
    details := { carrier := some "UPS", retryable := true } }

/-- fetchToken: cache update and result for a given exchange outcome.  The
missing-access_token throw is an AUTHENTICATION_ERROR CarrierError, which
the surrounding catch rethrows unchanged; every other failure is wrapped as
an AUTHENTICATION_ERROR with retryable true, except a CarrierError already
carrying AUTHENTICATION_ERROR, which passes through unchanged. -/
def fetchToken (now : Int) (cache : Option TokenCache)
    (outcome : ExchangeOutcome) : Option TokenCache × Except CarrierError String :=
  match outcome with
  | .success resp =>
    match resp.access_token with
    | some tok =>
      if tok = "" then (cache, .error missingAccessTokenError)
      else (some (cacheAfterFetch now tok resp.expires_in), .ok tok)
    | none => (cache, .error missingAccessTokenError)
  | .carrierFailure e =>
    if e.code = .AUTHENTICATION_ERROR then (cache, .error e)
    else (cache, .error (authWrappedError e.message))
  | .jsFailure msg => (cache, .error (authWrappedError msg))

/-- Settlement of the in-flight refresh: apply fetchToken's cache effect,
resolve every waiter with the one shared result, and clear pendingRefresh. -/
def settleRefresh (st : AuthState) (now : Int) (outcome : ExchangeOutcome) :
    AuthState × List (Nat × Except CarrierError String) :=
  let fr := fetchToken now st.cache outcome
  ({ st with cache := fr.1, pending := false, waiters := [] },
   st.waiters.map fun c => (c, fr.2))

/-- A batch of logically concurrent getAccessToken calls, each running its
synchronous prefix before the refresh settles; returns the final state and
the calls that resolved immediately from the cache. -/
def runConcurrentCalls :
    AuthState → List (Nat × Int) → AuthState × List (Nat × Except CarrierError String)
  | st, [] => (st, [])
  | st, (c, t) :: rest =>
    let step := getAccessTokenStep st t c
    let rec2 := runConcurrentCalls step.1 rest
    (rec2.1,
     (match step.2 with
      | some res => [(c, res)]
      | none => []) ++ rec2.2)

/-! ### HTTP failure translation (src/http/client.ts) -/

structure UpstreamErrorRecord where
  code : Option String
  message : Option String
deriving DecidableEq, Repr

structure ErrorBodyResponse where
  errors : Option (List UpstreamErrorRecord)
deriving DecidableEq, Repr

structure ErrorBody where
  response : Option ErrorBodyResponse
deriving DecidableEq, Repr

structure AxiosResponseModel where
  status : Nat
  data : Option ErrorBody
deriving DecidableEq, Repr

/-- The possible arguments of HttpClient.translateError: an already
classified CarrierError, an AxiosError (with its code, message and optional
response), some other Error, or a thrown non-Error value. -/
inductive HttpFailure where
  | carrierFailure (e : CarrierError)
  | axiosFailure (code : Option String) (message : String)
      (response : Option AxiosResponseModel)
  | errorFailure (message : String)
  | nonErrorThrow
deriving DecidableEq, Repr

structure UpstreamExtract where
  code : String
  message : String
deriving DecidableEq, Repr

/-- extractUpstreamErrors: first record of body.response.errors, with the
falsy-field defaults "UNKNOWN" and "Unknown carrier error". -/
def extractUpstreamErrors (body : Option ErrorBody) : Option UpstreamExtract :=
  match body with
  | none => none
  | some b =>
    match b.response with
    | none => none
    | some r =>
      match r.errors with
      | none => none
      | some [] => none
      | some (e0 :: _) =>
        some { code := jsOr e0.code "UNKNOWN"
               message := jsOr e0.message "Unknown carrier error" }

/-- HttpClient.translateError. -/
def translateError (err : HttpFailure) : CarrierError :=
  match err with
  | .carrierFailure e => e
  | .axiosFailure code msg response =>
    if code = some "ECONNABORTED" ∨ code = some "ETIMEDOUT" then
      { code := .TIMEOUT_ERROR
        message := "Request timed out: " ++ msg
        details := { retryable := true } }
    else
      match response with
      | none =>
        { code := .NETWORK_ERROR
          message := "Network error: " ++ msg
          details := { retryable := true } }
      | some resp =>
        if resp.status = 401 then
          { code := .AUTHENTICATION_ERROR
            message := "Authentication failed"
            details := { httpStatus := some resp.status, retryable := true } }
        else if resp.status = 403 then
          { code := .AUTHORIZATION_ERROR
            message := "Authorization denied"
            details := { httpStatus := some resp.status, retryable := false } }
        else if resp.status = 429 then
          { code := .RATE_LIMIT_ERROR
            message := "Rate limit exceeded"
            details := { httpStatus := some resp.status, retryable := true } }
        else
          let upstream := extractUpstreamErrors resp.data
          { code := .CARRIER_API_ERROR
            message := jsOr (upstream.map UpstreamExtract.message)
              ("Carrier API returned HTTP " ++ toString resp.status)
            details :=
              { httpStatus := some resp.status
                upstreamCode := upstream.map UpstreamExtract.code
                upstreamMessage := upstream.map UpstreamExtract.message
                retryable := decide (500 ≤ resp.status) } }
  | .errorFailure msg =>
    { code := .UNKNOWN_ERROR, message := msg, details := { retryable := false } }
  | .nonErrorThrow =>
    { code := .UNKNOWN_ERROR
      message := "An unknown error occurred"
      details := { retryable := false } }

/-! ### Rating operation (src/carriers/ups/rating.ts)

execute builds the wire request and endpoint from the request, acquires a
token, sends, and parses.  The two network collaborators (token endpoint
and rating endpoint) are abstracted by their outcomes; the authenticator
state threads through so the invalidateToken side effect is visible. -/

def API_VERSION : String := "v2409"

/-- The endpoint selector: request.serviceCode ? "Rate" : "Shop". -/
def upsRequestOption (request : RateRequest) : String :=
  if strTruthy request.serviceCode then "Rate" else "Shop"

def upsRatingUrl (request : RateRequest) : String :=
  "/rating/" ++ API_VERSION ++ "/" ++ upsRequestOption request

def upsParseError (msg : String) : CarrierError :=
  { code := .PARSE_ERROR, message := msg, details := { carrier := some "UPS" } }

/-- UpsRatingOperation.parseResponse. -/
def parseResponse (data : UpsRateResponseWrapper) :
    Except CarrierError RateResponse :=
  match data.RateResponse with
  | none => .error (upsParseError "UPS response missing RateResponse envelope")
  | some rr =>
    match rr.RatedShipment with
    | none =>
      .error (upsParseError "UPS response missing or invalid RatedShipment array")
    | some shipments =>
      (shipments.mapM mapUpsRatedShipmentToQuote).map fun quotes =>
        { quotes := quotes }

/-- Outcome of auth.getAccessToken() as observed by execute. -/
inductive TokenAcqOutcome where
  | success (tok : String)
  | carrierFailure (e : CarrierError)
  | jsFailure (msg : String)
deriving DecidableEq, Repr

/-- Outcome of the rating POST as observed by execute. -/
inductive SendOutcome where
  | success (resp : UpsRateResponseWrapper)
  | carrierFailure (e : CarrierError)
  | jsFailure (msg : String)
deriving DecidableEq, Repr

/-- The error.details.carrier = "UPS" mutation before rethrow. -/
def setCarrier (e : CarrierError) (c : String) : CarrierError :=
  { e with details := { e.details with carrier := some c } }

/-- UpsRatingOperation.execute.  The wire request (buildUpsRateRequest
request) is POSTed to upsRatingUrl request with the bearer token; those
collaborator calls are abstracted by tokenOutcome and sendOutcome. -/
def upsExecute (request : RateRequest) (auth : AuthState)
    (tokenOutcome : TokenAcqOutcome) (sendOutcome : SendOutcome) :
    AuthState × Except CarrierError RateResponse :=
  let _upsRequest := buildUpsRateRequest request
  let _url := upsRatingUrl request
  match tokenOutcome with
  | .carrierFailure e => (auth, .error e)
  | .jsFailure _ =>
    (auth, .error
      { code := .AUTHENTICATION_ERROR
        message := "Failed to obtain UPS access token"
        details := { carrier := some "UPS", retryable := true } })
  | .success _tok =>
    match sendOutcome with
    | .carrierFailure e =>
      let auth2 := if e.code = .AUTHENTICATION_ERROR then invalidateToken auth else auth
      (auth2, .error (setCarrier e "UPS"))
    | .jsFailure msg =>
      (auth, .error
        { code := .UNKNOWN_ERROR
          message := "UPS rating request failed: " ++ msg
          details := { carrier := some "UPS", retryable := false } })
    | .success resp => (auth, parseResponse resp)

/-! ### Shipping orchestrator (src/services/shipping.ts) -/

/-- A rejection reason of one carrier's getRates promise: a CarrierError,
or any other thrown value (whose message may be nullish). -/
inductive RejectReason where
  | carrierFailure (e : CarrierError)
  | otherFailure (message : Option String)
deriving DecidableEq, Repr

/-- One settled element of the Promise.allSettled fan-out in shopRates. -/
inductive SettledRateCall where
  | fulfilled (carrier : String) (response : RateResponse)
  | rejected (reason : RejectReason)
deriving DecidableEq, Repr

/-- The error normalization of a rejected fan-out task. -/
def rejectionError : RejectReason → CarrierError
  | .carrierFailure e => e
  | .otherFailure msg =>
    { code := .UNKNOWN_ERROR
      message := msg.getD "Unknown error"
      details := {} }

/-- Concatenation of fulfilled carriers' quotes, in fan-out order. -/
def collectQuotes : List SettledRateCall → List RateQuote
  | [] => []
  | .fulfilled _ resp :: rest => resp.quotes ++ collectQuotes rest
  | .rejected _ :: rest => collectQuotes rest

/-- Error entries, one per rejected carrier, labelled with the error's own
details.carrier or "UNKNOWN". -/
def collectErrors : List SettledRateCall → List (String × CarrierError)
  | [] => []
  | .fulfilled _ _ :: rest => collectErrors rest
  | .rejected r :: rest =>
    let e := rejectionError r
    (e.details.carrier.getD "UNKNOWN", e) :: collectErrors rest

/-- The sort comparator (a, b) => a.totalCharges.amount - b.totalCharges.amount,
read as "a may stay before b": true iff the comparator result is ≤ 0 or NaN
(ECMA-262 treats a NaN comparator result like 0). -/
def quoteKeepsBefore (a b : RateQuote) : Bool :=
  match a.totalCharges.amount, b.totalCharges.amount with
  | .finite x, .finite y => decide (x ≤ y)
  | _, _ => true

/-- Stable insertion of an earlier element into the sorted list of later
elements.  Array.prototype.sort is required to be stable; for a consistent
comparator every stable sort yields this insertion sort's result. -/
def sortInsert (x : RateQuote) : List RateQuote → List RateQuote
  | [] => [x]
  | y :: l => if quoteKeepsBefore x y then x :: y :: l else y :: sortInsert x l

def sortQuotes : List RateQuote → List RateQuote
  | [] => []
  | x :: l => sortInsert x (sortQuotes l)

structure ShippingRateResult where
  quotes : List RateQuote
  errors : List (String × CarrierError)
deriving DecidableEq, Repr

/-- ShippingService.shopRates, applied to the settled outcomes of the
per-carrier fan-out (Promise.allSettled waits for every task). -/
def shopRates (settled : List SettledRateCall) :
    Except CarrierError ShippingRateResult :=
  if settled.isEmpty then
    .error
      { code := .CONFIGURATION_ERROR
        message := "No carriers registered"
        details := { retryable := false } }
  else
    .ok { quotes := sortQuotes (collectQuotes settled)
          errors := collectErrors settled }

/-! ### Request validation (src/validation/schemas.ts, src/carriers/ups/client.ts)

The zod RateRequestSchema is embedded as a function from a request to its
issue list; safeParse succeeds exactly when the list is empty.  Messages
follow the schema: custom messages where the schema supplies one, zod's
default wording otherwise (the defaults' exact text is not load-bearing). -/

structure ZodIssue where
  path : List String
  message : String
deriving DecidableEq, Repr

def checkStringLen (path : List String) (s : String) (minLen maxLen : Nat)
    (minMsg maxMsg : String) : List ZodIssue :=
  (if s.length < minLen then [⟨path, minMsg⟩] else [])
    ++ (if s.length > maxLen then [⟨path, maxMsg⟩] else [])

def checkExactLen (path : List String) (s : String) (n : Nat) (msg : String) :
    List ZodIssue :=
  if s.length ≠ n then [⟨path, msg⟩] else []

def checkPositive (path : List String) (v : ℚ) (msg : String) : List ZodIssue :=
  if v ≤ 0 then [⟨path, msg⟩] else []

def validateAddressLines (path : List String) (i : Nat) :
    List String → List ZodIssue
  | [] => []
  | s :: rest =>
    checkStringLen (path ++ [toString i]) s 1 35
        "String must contain at least 1 character(s)"
        "String must contain at most 35 character(s)"
      ++ validateAddressLines path (i + 1) rest

/-- AddressSchema. -/
def validateAddress (path : List String) (a : Address) : List ZodIssue :=
  (match a.name with
   | none => []
   | some s =>
     checkStringLen (path ++ ["name"]) s 1 35
       "String must contain at least 1 character(s)"
       "String must contain at most 35 character(s)")
  ++ (if a.addressLines.length < 1 then
        [⟨path ++ ["addressLines"], "At least one address line is required"⟩]
      else [])
  ++ (if a.addressLines.length > 3 then
        [⟨path ++ ["addressLines"], "Array must contain at most 3 element(s)"⟩]
      else [])
  ++ validateAddressLines (path ++ ["addressLines"]) 0 a.addressLines
  ++ checkStringLen (path ++ ["city"]) a.city 1 30
       "String must contain at least 1 character(s)"
       "String must contain at most 30 character(s)"
  ++ (match a.stateProvinceCode with
      | none => []
      | some s =>
        checkExactLen (path ++ ["stateProvinceCode"]) s 2
          "State/province code must be exactly 2 characters")
  ++ checkStringLen (path ++ ["postalCode"]) a.postalCode 1 9
       "String must contain at least 1 character(s)"
       "String must contain at most 9 character(s)"
  ++ checkExactLen (path ++ ["countryCode"]) a.countryCode 2
       "Country code must be exactly 2 characters"

/-- DimensionsSchema. -/
def validateDimensions (path : List String) (d : Dimensions) : List ZodIssue :=
  checkPositive (path ++ ["length"]) d.length "Length must be positive"
    ++ checkPositive (path ++ ["width"]) d.width "Width must be positive"
    ++ checkPositive (path ++ ["height"]) d.height "Height must be positive"

/-- PackageSchema (the weight and dimension units are exact enums by
construction). -/
def validatePackage (path : List String) (p : Package) : List ZodIssue :=
  checkPositive (path ++ ["weight", "value"]) p.weight.value
      "Weight must be positive"
    ++ (match p.dimensions with
        | none => []
        | some d => validateDimensions (path ++ ["dimensions"]) d)

def validatePackagesItems (i : Nat) : List Package → List ZodIssue
  | [] => []
  | p :: rest =>
    validatePackage ["packages", toString i] p
      ++ validatePackagesItems (i + 1) rest

/-- RateRequestSchema. -/
def validateRateRequest (r : RateRequest) : List ZodIssue :=
  validateAddress ["origin"] r.origin
    ++ validateAddress ["destination"] r.destination
    ++ (if r.packages.length < 1 then
          [⟨["packages"], "At least one package is required"⟩]
        else [])
    ++ (if r.packages.length > 200 then
          [⟨["packages"], "Array must contain at most 200 element(s)"⟩]
        else [])
    ++ validatePackagesItems 0 r.packages
    ++ (match r.shipperAccountNumber with
        | none => []
        | some s =>
          (if s.length < 6 then
             [⟨["shipperAccountNumber"],
               "String must contain at least 6 character(s)"⟩]
           else [])
          ++ (if s.length > 6 then
                [⟨["shipperAccountNumber"],
                  "String must contain at most 6 character(s)"⟩]
              else []))

/-- Array.prototype.flatten(sep). -/
def joinSep (sep : String) : List String → String
  | [] => ""
  | [a] => a
  | a :: b :: rest => a ++ sep ++ joinSep sep (b :: rest)

/-- One line of formatZodError: path joined by dots, a colon, the message. -/
def renderIssue (i : ZodIssue) : String :=
  joinSep "." i.path ++ ": " ++ i.message

/-- formatZodError (issues joined by "; "). -/
def formatZodError (issues : List ZodIssue) : String :=
  joinSep "; " (issues.map renderIssue)

/-- The ValidationError thrown by UpsCarrierClient.getRates. -/
def invalidRateRequestError (r : RateRequest) : CarrierError :=
  { code := .VALIDATION_ERROR
    message := "Invalid rate request: " ++ formatZodError (validateRateRequest r)
    details := { carrier := some "UPS", retryable := false } }

/-- UpsCarrierClient.getRates: validate first, then delegate to the rating
operation (abstracted as exec, which performs all token acquisition and
network activity). -/
def upsClientGetRates
    (exec : RateRequest → Except CarrierError RateResponse)
    (r : RateRequest) : Except CarrierError RateResponse :=
  if validateRateRequest r = [] then exec r
  else .error (invalidRateRequestError r)

/-- Occurrence of a character sequence inside another (substring fact used
to state "the message names the offending field and constraint"). -/
def containsSeg (needle hay : List Char) : Prop :=
  ∃ pre post, hay = pre ++ needle ++ post

/-- Substring occurrence on strings. -/
def strContainsSub (needle hay : String) : Prop :=
  containsSeg needle.data hay.data

/-! ### Theorems -/

/-- C8: billing-weight unit codes reverse-translate through the same table
used outbound, the numeric weight value passes through unchanged, and
mapUpsRatedShipmentToQuote fails, with a ParseError, exactly when the unit
code is not one of LBS, KGS, OZS. -/
theorem billingWeight_unit_reverse_translation (rated : UpsRatedShipment) :
    (∀ u : WeightUnit, UPS_WEIGHT_UNIT_TO_DOMAIN (WEIGHT_UNIT_TO_UPS u) = some u) ∧
    (∀ s : String,
      (UPS_WEIGHT_UNIT_TO_DOMAIN s).isSome = true ↔ s = "LBS" ∨ s = "KGS" ∨ s = "OZS") ∧
    (∀ u, UPS_WEIGHT_UNIT_TO_DOMAIN rated.BillingWeight.UnitOfMeasurement.Code = some u →
      ∃ q, mapUpsRatedShipmentToQuote rated = .ok q ∧
        q.billingWeight =
          some { value := jsParseFloat rated.BillingWeight.Weight, unit := u }) ∧
    ((∃ e, mapUpsRatedShipmentToQuote rated = .error e) ↔
      UPS_WEIGHT_UNIT_TO_DOMAIN rated.BillingWeight.UnitOfMeasurement.Code = none) ∧
    (∀ e, mapUpsRatedShipmentToQuote rated = .error e → e.code = .PARSE_ERROR) := by
  refine ⟨?_, ?_, ?_, ?_, ?_⟩
  · intro u; cases u <;> rfl
  · intro s
    simp only [UPS_WEIGHT_UNIT_TO_DOMAIN]
    split_ifs with h1 h2 h3 <;> simp_all
  · intro u hu
    simp only [mapUpsRatedShipmentToQuote, hu]
    exact ⟨_, rfl, rfl⟩
  · cases hcase : UPS_WEIGHT_UNIT_TO_DOMAIN rated.BillingWeight.UnitOfMeasurement.Code with
    | none => simp [mapUpsRatedShipmentToQuote, hcase]
    | some u => simp [mapUpsRatedShipmentToQuote, hcase]
  · intro e he
    cases hcase : UPS_WEIGHT_UNIT_TO_DOMAIN rated.BillingWeight.UnitOfMeasurement.Code with
    | none =>
      simp only [mapUpsRatedShipmentToQuote, hcase, Except.error.injEq] at he
      rw [← he]
    | some u => simp [mapUpsRatedShipmentToQuote, hcase] at he

/-- Witness for C8 at the specification's example: unit code "LBS" maps to
domain unit LB with the numeric value unchanged. -/
theorem billingWeight_unit_reverse_translation_witness :
    ∃ q,
      mapUpsRatedShipmentToQuote
        { Service := { Code := "03", Description := some "UPS Ground" }
          RatedShipmentAlert := none
          BillingWeight :=
            { UnitOfMeasurement := { Code := "LBS", Description := some "Pounds" }
              Weight := "5.0" }
          TransportationCharges := { CurrencyCode := "USD", MonetaryValue := "11.30" }
          ServiceOptionsCharges := none
          TotalCharges := { CurrencyCode := "USD", MonetaryValue := "11.30" }
          GuaranteedDelivery := none
          TimeInTransit := none } = .ok q ∧
      q.billingWeight = some { value := jsParseFloat "5.0", unit := .LB } :=
  (billingWeight_unit_reverse_translation _).2.2.1 .LB (by decide)

/-- C10: a malformed monetary string never makes mapUpsRatedShipmentToQuote
fail (the quote is still produced, assuming the only failure source, the
billing-weight unit code, is valid) and the corresponding amount is NaN —
parseFloat semantics, never an error and never a silent zero default. -/
theorem parseCharge_nan_propagation (rated : UpsRatedShipment) (u : WeightUnit)
    (hu : UPS_WEIGHT_UNIT_TO_DOMAIN rated.BillingWeight.UnitOfMeasurement.Code = some u) :
    ∃ q, mapUpsRatedShipmentToQuote rated = .ok q ∧
      q.totalCharges.amount = jsParseFloat rated.TotalCharges.MonetaryValue ∧
      q.transportationCharges.amount =
        jsParseFloat rated.TransportationCharges.MonetaryValue ∧
      q.serviceOptionsCharges = rated.ServiceOptionsCharges.map parseCharge ∧
      (jsParseFloat rated.TotalCharges.MonetaryValue = .nan →
        q.totalCharges.amount = .nan ∧ ∀ x : ℚ, q.totalCharges.amount ≠ .finite x) ∧
      (jsParseFloat rated.TransportationCharges.MonetaryValue = .nan →
        q.transportationCharges.amount = .nan) ∧
      (∀ c, rated.ServiceOptionsCharges = some c →
        jsParseFloat c.MonetaryValue = .nan →
        ∃ m, q.serviceOptionsCharges = some m ∧ m.amount = .nan) := by
  simp only [mapUpsRatedShipmentToQuote, hu]
  refine ⟨_, rfl, rfl, rfl, rfl, ?_, ?_, ?_⟩
  · intro h
    refine ⟨h, ?_⟩
    intro x
    simp only [parseCharge, h]
    intro hx
    exact JsNum.noConfusion hx
  · intro h
    simp only [parseCharge, h]
  · intro c hc h
    simp only [hc, Option.map_some]
    exact ⟨_, rfl, by simp [parseCharge, h]⟩

/-- Witness for C10: a rated shipment whose TotalCharges monetary value is
"N/A" still maps to a quote, and its total amount is NaN. -/
theorem parseCharge_nan_propagation_witness :
    ∃ q,
      mapUpsRatedShipmentToQuote
        { Service := { Code := "03", Description := some "UPS Ground" }
          RatedShipmentAlert := none
          BillingWeight :=
            { UnitOfMeasurement := { Code := "LBS", Description := none }
              Weight := "5.0" }
          TransportationCharges := { CurrencyCode := "USD", MonetaryValue := "11.30" }
          ServiceOptionsCharges := none
          TotalCharges := { CurrencyCode := "USD", MonetaryValue := "N/A" }
          GuaranteedDelivery := none
          TimeInTransit := none } = .ok q ∧
      q.totalCharges.amount = jsParseFloat "N/A" ∧
      q.transportationCharges.amount = jsParseFloat "11.30" ∧
      q.serviceOptionsCharges = none ∧
      (jsParseFloat "N/A" = .nan →
        q.totalCharges.amount = .nan ∧ ∀ x : ℚ, q.totalCharges.amount ≠ .finite x) ∧
      (jsParseFloat "11.30" = .nan → q.transportationCharges.amount = .nan) ∧
      (∀ c, (none : Option UpsCharge) = some c →
        jsParseFloat c.MonetaryValue = .nan →
        ∃ m, (none : Option MonetaryAmount) = some m ∧ m.amount = .nan) := by
  have h := parseCharge_nan_propagation
    { Service := { Code := "03", Description := some "UPS Ground" }
      RatedShipmentAlert := none
      BillingWeight :=
        { UnitOfMeasurement := { Code := "LBS", Description := none }
          Weight := "5.0" }
      TransportationCharges := { CurrencyCode := "USD", MonetaryValue := "11.30" }
      ServiceOptionsCharges := none
      TotalCharges := { CurrencyCode := "USD", MonetaryValue := "N/A" }
      GuaranteedDelivery := none
      TimeInTransit := none } .LB (by decide)
  simpa using h

/-- C7: the wire Shipment.Service field is present exactly when the request
specifies a (non-empty, i.e. truthy) serviceCode, and the endpoint is
"Rate" in that case and "Shop" otherwise; one package serializes as a
single object and two or more as an array; NumOfPieces is populated exactly
when there are two or more packages; PaymentDetails is included exactly
when a (truthy) shipperAccountNumber is present. -/
theorem buildUpsRateRequest_shape (r : RateRequest) :
    ((buildUpsRateRequest r).RateRequest.Shipment.Service.isSome =
      strTruthy r.serviceCode) ∧
    (upsRequestOption r = "Rate" ↔ strTruthy r.serviceCode = true) ∧
    (upsRequestOption r = "Shop" ↔ strTruthy r.serviceCode = false) ∧
    (upsRatingUrl r = "/rating/v2409/" ++ upsRequestOption r) ∧
    (∀ p, r.packages = [p] →
      (buildUpsRateRequest r).RateRequest.Shipment.Package =
        .single (mapPackageToUps p)) ∧
    (r.packages.length ≠ 1 →
      (buildUpsRateRequest r).RateRequest.Shipment.Package =
        .array (r.packages.map mapPackageToUps)) ∧
    ((buildUpsRateRequest r).RateRequest.Shipment.NumOfPieces.isSome = true ↔
      2 ≤ r.packages.length) ∧
    (2 ≤ r.packages.length →
      (buildUpsRateRequest r).RateRequest.Shipment.NumOfPieces =
        some (toString r.packages.length)) ∧
    ((buildUpsRateRequest r).RateRequest.Shipment.PaymentDetails.isSome =
      strTruthy r.shipperAccountNumber) := by
  refine ⟨?_, ?_, ?_, ?_, ?_, ?_, ?_, ?_, ?_⟩
  · simp only [buildUpsRateRequest]
    cases strTruthy r.serviceCode <;> simp
  · simp only [upsRequestOption]
    cases strTruthy r.serviceCode <;> simp
  · simp only [upsRequestOption]
    cases strTruthy r.serviceCode <;> simp
  · rfl
  · intro p hp
    simp [buildUpsRateRequest, hp]
  · intro hlen
    simp only [buildUpsRateRequest]
    match hm : r.packages.map mapPackageToUps with
    | [] => rfl
    | [q] =>
      exfalso
      apply hlen
      have := congrArg List.length hm
      simpa using this
    | q1 :: q2 :: rest => rfl
  · simp only [buildUpsRateRequest, List.length_map]
    by_cases h : r.packages.length > 1
    · simp [h]; omega
    · simp [h]; omega
  · intro h
    have h1 : r.packages.length > 1 := by omega
    simp [buildUpsRateRequest, List.length_map, h1]
  · simp only [buildUpsRateRequest]
    cases strTruthy r.shipperAccountNumber <;> simp

/-- Witness for C7: a one-package request with a serviceCode and an account
number has a Service field, the "Rate" endpoint, a single Package object,
no NumOfPieces, and PaymentDetails. -/
theorem buildUpsRateRequest_shape_witness :
    (buildUpsRateRequest
        { origin :=
            { name := none, addressLines := ["10 Main St"], city := "Austin"
              stateProvinceCode := some "TX", postalCode := "78701"
              countryCode := "US", residential := none }
          destination :=
            { name := none, addressLines := ["2 Oak Ave"], city := "Dallas"
              stateProvinceCode := some "TX", postalCode := "75201"
              countryCode := "US", residential := none }
          packages := [{ weight := { value := 5, unit := .LB }, dimensions := none }]
          serviceCode := some "03"
          shipperAccountNumber := some "AB1234" }).RateRequest.Shipment.Package =
      .single (mapPackageToUps
        { weight := { value := 5, unit := .LB }, dimensions := none }) ∧
    upsRequestOption
      { origin :=
          { name := none, addressLines := ["10 Main St"], city := "Austin"
            stateProvinceCode := some "TX", postalCode := "78701"
            countryCode := "US", residential := none }
        destination :=
          { name := none, addressLines := ["2 Oak Ave"], city := "Dallas"
            stateProvinceCode := some "TX", postalCode := "75201"
            countryCode := "US", residential := none }
        packages := [{ weight := { value := 5, unit := .LB }, dimensions := none }]
        serviceCode := some "03"
        shipperAccountNumber := some "AB1234" } = "Rate" :=
  ⟨((buildUpsRateRequest_shape _).2.2.2.2.1 _ rfl),
   ((buildUpsRateRequest_shape _).2.1).2 (by decide)⟩

/-- C4: translateError classifies failures in priority order: connection
timeout (ECONNABORTED / ETIMEDOUT) as retryable TimeoutError; no response
as retryable NetworkError; 401 as retryable AuthenticationError; 403 as
non-retryable AuthorizationError; 429 as retryable RateLimitError; any
other status as CarrierApiError retryable iff status ≥ 500, carrying the
upstream response.errors[0] code/message when that structured body is
present; an unclassified throw (non-Axios) as non-retryable UnknownError. -/
theorem translateError_priority_classification :
    (∀ code msg resp, (code = some "ECONNABORTED" ∨ code = some "ETIMEDOUT") →
      translateError (.axiosFailure code msg resp) =
        { code := .TIMEOUT_ERROR
          message := "Request timed out: " ++ msg
          details := { retryable := true } }) ∧
    (∀ code msg, ¬(code = some "ECONNABORTED" ∨ code = some "ETIMEDOUT") →
      translateError (.axiosFailure code msg none) =
        { code := .NETWORK_ERROR
          message := "Network error: " ++ msg
          details := { retryable := true } }) ∧
    (∀ code msg resp, ¬(code = some "ECONNABORTED" ∨ code = some "ETIMEDOUT") →
      resp.status = 401 →
      translateError (.axiosFailure code msg (some resp)) =
        { code := .AUTHENTICATION_ERROR
          message := "Authentication failed"
          details := { httpStatus := some 401, retryable := true } }) ∧
    (∀ code msg resp, ¬(code = some "ECONNABORTED" ∨ code = some "ETIMEDOUT") →
      resp.status = 403 →
      translateError (.axiosFailure code msg (some resp)) =
        { code := .AUTHORIZATION_ERROR
          message := "Authorization denied"
          details := { httpStatus := some 403, retryable := false } }) ∧
    (∀ code msg resp, ¬(code = some "ECONNABORTED" ∨ code = some "ETIMEDOUT") →
      resp.status = 429 →
      translateError (.axiosFailure code msg (some resp)) =
        { code := .RATE_LIMIT_ERROR
          message := "Rate limit exceeded"
          details := { httpStatus := some 429, retryable := true } }) ∧
    (∀ code msg resp, ¬(code = some "ECONNABORTED" ∨ code = some "ETIMEDOUT") →
      resp.status ≠ 401 → resp.status ≠ 403 → resp.status ≠ 429 →
      (translateError (.axiosFailure code msg (some resp))).code =
          .CARRIER_API_ERROR ∧
      ((translateError (.axiosFailure code msg (some resp))).details.retryable =
          true ↔ 500 ≤ resp.status) ∧
      (translateError (.axiosFailure code msg (some resp))).details.upstreamCode =
        (extractUpstreamErrors resp.data).map UpstreamExtract.code ∧
      (translateError (.axiosFailure code msg (some resp))).details.upstreamMessage =
        (extractUpstreamErrors resp.data).map UpstreamExtract.message ∧
      (translateError (.axiosFailure code msg (some resp))).details.httpStatus =
        some resp.status) ∧
    (∀ b r e0 rest, b.response = some r → r.errors = some (e0 :: rest) →
      extractUpstreamErrors (some b) =
        some { code := jsOr e0.code "UNKNOWN"
               message := jsOr e0.message "Unknown carrier error" }) ∧
    (∀ msg, translateError (.errorFailure msg) =
      { code := .UNKNOWN_ERROR, message := msg, details := { retryable := false } }) ∧
    (translateError .nonErrorThrow =
      { code := .UNKNOWN_ERROR
        message := "An unknown error occurred"
        details := { retryable := false } }) := by
  refine ⟨?_, ?_, ?_, ?_, ?_, ?_, ?_, ?_, ?_⟩
  · intro code msg resp h
    simp [translateError, h]
  · intro code msg h
    simp [translateError, h]
  · intro code msg resp h h401
    simp [translateError, h, h401]
  · intro code msg resp h h403
    simp [translateError, h, h403]
  · intro code msg resp h h429
    simp [translateError, h, h429]
  · intro code msg resp h h401 h403 h429
    simp [translateError, h, h401, h403, h429]
  · intro b r e0 rest hb hr
    simp [extractUpstreamErrors, hb, hr]
  · intro msg
    rfl
  · rfl

/-- Sample upstream 500 error body (the UPS_500_ERROR test fixture). -/
def sample500Body : ErrorBody :=
  { response := some
      { errors := some [{ code := some "500001", message := some "Internal Server Error" }] } }

/-- Sample 500 response carrying sample500Body. -/
def sample500Response : AxiosResponseModel :=
  { status := 500, data := some sample500Body }

/-- Witness for C4: a 500 response with a structured upstream error body is
a CarrierApiError, retryable, carrying the upstream code and message. -/
theorem translateError_priority_classification_witness :
    (translateError (.axiosFailure none "Request failed" (some sample500Response))).code =
        .CARRIER_API_ERROR ∧
    ((translateError (.axiosFailure none "Request failed"
        (some sample500Response))).details.retryable = true ↔
      500 ≤ sample500Response.status) ∧
    (translateError (.axiosFailure none "Request failed"
        (some sample500Response))).details.upstreamCode =
      (extractUpstreamErrors sample500Response.data).map UpstreamExtract.code ∧
    (translateError (.axiosFailure none "Request failed"
        (some sample500Response))).details.upstreamMessage =
      (extractUpstreamErrors sample500Response.data).map UpstreamExtract.message ∧
    (translateError (.axiosFailure none "Request failed"
        (some sample500Response))).details.httpStatus =
      some sample500Response.status :=
  translateError_priority_classification.2.2.2.2.2.1 none "Request failed"
    sample500Response (by decide) (by decide) (by decide) (by decide)

/-- C6: every failure of the token fetch is an AUTHENTICATION_ERROR; a
cause that is already an AUTHENTICATION_ERROR CarrierError is rethrown
unchanged, and every other cause (missing access_token, network, timeout,
non-2xx, malformed body) is wrapped with retryable = true. -/
theorem fetchToken_failure_classification (now : Int) (cache : Option TokenCache)
    (outcome : ExchangeOutcome) (e : CarrierError)
    (he : (fetchToken now cache outcome).2 = .error e) :
    e.code = .AUTHENTICATION_ERROR ∧
    (∀ e0, outcome = .carrierFailure e0 → e0.code = .AUTHENTICATION_ERROR → e = e0) ∧
    ((∀ e0, outcome = .carrierFailure e0 → e0.code ≠ .AUTHENTICATION_ERROR) →
      e.details.retryable = true) := by
  cases outcome with
  | success resp =>
    cases htok : resp.access_token with
    | none =>
      simp [fetchToken, htok] at he
      subst he
      exact ⟨rfl, fun e0 h => ExchangeOutcome.noConfusion h, fun _ => rfl⟩
    | some tok =>
      by_cases htz : tok = ""
      · simp [fetchToken, htok, htz] at he
        subst he
        exact ⟨rfl, fun e0 h => ExchangeOutcome.noConfusion h, fun _ => rfl⟩
      · simp [fetchToken, htok, htz] at he
  | carrierFailure e0 =>
    by_cases hc : e0.code = .AUTHENTICATION_ERROR
    · simp [fetchToken, hc] at he
      subst he
      exact ⟨hc,
        fun e1 h1 _ => by cases h1; rfl,
        fun hall => absurd hc (hall e0 rfl)⟩
    · simp [fetchToken, hc] at he
      subst he
      exact ⟨rfl,
        fun e1 h1 hc1 =>
          absurd (show e0.code = .AUTHENTICATION_ERROR by cases h1; exact hc1) hc,
        fun _ => rfl⟩
  | jsFailure msg =>
    simp [fetchToken] at he
    subst he
    exact ⟨rfl, fun e0 h => ExchangeOutcome.noConfusion h, fun _ => rfl⟩

/-- Witness for C6: an OAuth response lacking access_token fails with an
AUTHENTICATION_ERROR whose retryable flag is true. -/
theorem fetchToken_failure_classification_witness :
    missingAccessTokenError.code = .AUTHENTICATION_ERROR ∧
    (∀ e0, ExchangeOutcome.success
        { access_token := none, token_type := some "Bearer"
          issued_at := none, expires_in := some "14399", status := some "approved" } =
        .carrierFailure e0 → e0.code = .AUTHENTICATION_ERROR →
        missingAccessTokenError = e0) ∧
    ((∀ e0, ExchangeOutcome.success
        { access_token := none, token_type := some "Bearer"
          issued_at := none, expires_in := some "14399", status := some "approved" } =
        .carrierFailure e0 → e0.code ≠ .AUTHENTICATION_ERROR) →
      missingAccessTokenError.details.retryable = true) :=
  fetchToken_failure_classification 0 none
    (.success { access_token := none, token_type := some "Bearer"
                issued_at := none, expires_in := some "14399", status := some "approved" })
    missingAccessTokenError rfl

/-- C2: getAccessToken returns the cached token, with no upstream call and
unchanged state, exactly when a cached token exists and the current time is
strictly before its expiresAt; a successful fetch caches
expiresAt = fetch time + expires_in * 1000 - 60000; hence a token with
expires_in ≤ 60 seconds is expired the moment it is cached, and any
subsequent call (at or after the fetch time, with no refresh in flight)
starts a new exchange. -/
theorem token_cache_use_and_expiry_buffer
    (st : AuthState) (now : Int) (caller : Nat)
    (resp : OAuthTokenResponse) (tok s : String) (e : Int)
    (fetchNow later : Int) (cache0 : Option TokenCache)
    (st2 : AuthState) (caller2 : Nat)
    (htok : resp.access_token = some tok) (htne : tok ≠ "")
    (hexp : resp.expires_in = some s) (hparse : jsParseIntCore s = some e)
    (hshort : e ≤ 60) (hlater : fetchNow ≤ later)
    (hcache2 : st2.cache = some (cacheAfterFetch fetchNow tok (some s)))
    (hpend2 : st2.pending = false) :
    ((getAccessTokenStep st now caller).2.isSome = cacheValid st.cache now) ∧
    (cacheValid st.cache now = true →
      getAccessTokenStep st now caller = (st, st.cache.map fun c => .ok c.accessToken)) ∧
    (cacheValid st.cache now = true ↔
      ∃ c x, st.cache = some c ∧ c.expiresAt = some x ∧ now < x) ∧
    (fetchToken fetchNow cache0 (.success resp) =
      (some { accessToken := tok
              expiresAt := some (fetchNow + e * 1000 - TOKEN_EXPIRY_BUFFER_MS) },
       .ok tok)) ∧
    ((getAccessTokenStep st2 later caller2).2 = none) ∧
    ((getAccessTokenStep st2 later caller2).1.fetchCount = st2.fetchCount + 1) := by
  have hcl : st2.cache = some
      { accessToken := tok
        expiresAt := some (fetchNow + e * 1000 - TOKEN_EXPIRY_BUFFER_MS) } := by
    rw [hcache2]
    simp [cacheAfterFetch, jsParseIntOpt, hparse]
  have hinvalid2 : cacheValid st2.cache later = false := by
    rw [hcl]
    simp only [cacheValid]
    simp only [decide_eq_false_iff_not, not_lt, TOKEN_EXPIRY_BUFFER_MS]
    omega
  refine ⟨?_, ?_, ?_, ?_, ?_, ?_⟩
  · cases hval : cacheValid st.cache now with
    | true =>
      have hstep : getAccessTokenStep st now caller =
          (st, st.cache.map fun c => .ok c.accessToken) := by
        simp [getAccessTokenStep, hval]
      rw [hstep]
      cases hc : st.cache with
      | none => rw [hc] at hval; simp [cacheValid] at hval
      | some c => simp
    | false => simp [getAccessTokenStep, hval]
  · intro hval
    simp [getAccessTokenStep, hval]
  · cases hc : st.cache with
    | none => simp [cacheValid]
    | some c =>
      cases hx : c.expiresAt with
      | none => simp [cacheValid, hx]
      | some x =>
        simp only [cacheValid, hx]
        constructor
        · intro h
          exact ⟨c, x, rfl, hx, by simpa using h⟩
        · rintro ⟨c2, x2, hc2, hx2, hlt⟩
          injection hc2 with hc2
          subst hc2
          rw [hx] at hx2
          injection hx2 with hx2
          subst hx2
          simpa using hlt
  · simp [fetchToken, htok, htne, hexp, cacheAfterFetch, jsParseIntOpt, hparse]
  · simp [getAccessTokenStep, hinvalid2]
  · simp [getAccessTokenStep, hinvalid2, startOrJoinRefresh, hpend2]

/-- Witness for C2: a token fetched at time 1000 with expires_in = "60" is
cached with expiresAt = 1000, is invalid immediately, and a call at time
1000 starts a fresh exchange. -/
theorem token_cache_use_and_expiry_buffer_witness :
    ((getAccessTokenStep { cache := none, pending := false, waiters := [], fetchCount := 0 }
        0 0).2.isSome =
      cacheValid (none : Option TokenCache) 0) ∧
    (cacheValid (none : Option TokenCache) 0 = true →
      getAccessTokenStep { cache := none, pending := false, waiters := [], fetchCount := 0 }
          0 0 =
        ({ cache := none, pending := false, waiters := [], fetchCount := 0 },
         (none : Option TokenCache).map fun c => .ok c.accessToken)) ∧
    (cacheValid (none : Option TokenCache) 0 = true ↔
      ∃ c x, (none : Option TokenCache) = some c ∧ c.expiresAt = some x ∧ (0 : Int) < x) ∧
    (fetchToken 1000 none
        (.success { access_token := some "tokA", token_type := some "Bearer"
                    issued_at := none, expires_in := some "60", status := some "approved" }) =
      (some { accessToken := "tokA", expiresAt := some (1000 + 60 * 1000 - TOKEN_EXPIRY_BUFFER_MS) },
       .ok "tokA")) ∧
    ((getAccessTokenStep
        { cache := some (cacheAfterFetch 1000 "tokA" (some "60"))
          pending := false, waiters := [], fetchCount := 7 } 1000 1).2 = none) ∧
    ((getAccessTokenStep
        { cache := some (cacheAfterFetch 1000 "tokA" (some "60"))
          pending := false, waiters := [], fetchCount := 7 } 1000 1).1.fetchCount = 7 + 1) :=
  token_cache_use_and_expiry_buffer
    { cache := none, pending := false, waiters := [], fetchCount := 0 } 0 0
    { access_token := some "tokA", token_type := some "Bearer"
      issued_at := none, expires_in := some "60", status := some "approved" }
    "tokA" "60" 60 1000 1000 none
    { cache := some (cacheAfterFetch 1000 "tokA" (some "60"))
      pending := false, waiters := [], fetchCount := 7 } 1
    rfl (by decide) rfl (by decide) (by decide) (by decide) rfl rfl

/-- C5: when the rating SEND stage fails with an AUTHENTICATION_ERROR
CarrierError, execute invalidates the token before propagating the error
(tagged with carrier "UPS"); invalidateToken clears the cache
unconditionally and touches nothing else, so the next getAccessToken call
starts a fresh exchange even if the cleared token had not expired. -/
theorem execute_invalidates_token_on_auth_error
    (request : RateRequest) (auth : AuthState) (tok : String) (e : CarrierError)
    (hcode : e.code = .AUTHENTICATION_ERROR) :
    ((upsExecute request auth (.success tok) (.carrierFailure e)).1 =
      invalidateToken auth) ∧
    ((upsExecute request auth (.success tok) (.carrierFailure e)).1.cache = none) ∧
    ((upsExecute request auth (.success tok) (.carrierFailure e)).2 =
      .error (setCarrier e "UPS")) ∧
    (∀ st : AuthState, (invalidateToken st).cache = none ∧
      (invalidateToken st).pending = st.pending ∧
      (invalidateToken st).fetchCount = st.fetchCount) ∧
    (∀ (st : AuthState) (t : Int) (c : Nat), st.pending = false →
      (getAccessTokenStep (invalidateToken st) t c).2 = none ∧
      (getAccessTokenStep (invalidateToken st) t c).1.fetchCount = st.fetchCount + 1) := by
  refine ⟨?_, ?_, ?_, ?_, ?_⟩
  · simp [upsExecute, hcode]
  · simp [upsExecute, hcode, invalidateToken]
  · simp [upsExecute, hcode]
  · intro st
    exact ⟨rfl, rfl, rfl⟩
  · intro st t c hp
    constructor
    · simp [getAccessTokenStep, invalidateToken, cacheValid]
    · simp [getAccessTokenStep, invalidateToken, cacheValid, startOrJoinRefresh, hp]

/-- Witness for C5 at a concrete auth failure during SEND. -/
theorem execute_invalidates_token_on_auth_error_witness :
    ((upsExecute
        { origin :=
            { name := none, addressLines := ["10 Main St"], city := "Austin"
              stateProvinceCode := none, postalCode := "78701"
              countryCode := "US", residential := none }
          destination :=
            { name := none, addressLines := ["2 Oak Ave"], city := "Dallas"
              stateProvinceCode := none, postalCode := "75201"
              countryCode := "US", residential := none }
          packages := [{ weight := { value := 5, unit := .LB }, dimensions := none }]
          serviceCode := none
          shipperAccountNumber := none }
        { cache := some { accessToken := "tokA", expiresAt := some 99999 }
          pending := false, waiters := [], fetchCount := 1 }
        (.success "tokA")
        (.carrierFailure
          { code := .AUTHENTICATION_ERROR, message := "Authentication failed"
            details := { httpStatus := some 401, retryable := true } })).1.cache =
      none) ∧
    ((upsExecute
        { origin :=
            { name := none, addressLines := ["10 Main St"], city := "Austin"
              stateProvinceCode := none, postalCode := "78701"
              countryCode := "US", residential := none }
          destination :=
            { name := none, addressLines := ["2 Oak Ave"], city := "Dallas"
              stateProvinceCode := none, postalCode := "75201"
              countryCode := "US", residential := none }
          packages := [{ weight := { value := 5, unit := .LB }, dimensions := none }]
          serviceCode := none
          shipperAccountNumber := none }
        { cache := some { accessToken := "tokA", expiresAt := some 99999 }
          pending := false, waiters := [], fetchCount := 1 }
        (.success "tokA")
        (.carrierFailure
          { code := .AUTHENTICATION_ERROR, message := "Authentication failed"
            details := { httpStatus := some 401, retryable := true } })).2 =
      .error (setCarrier
        { code := .AUTHENTICATION_ERROR, message := "Authentication failed"
          details := { httpStatus := some 401, retryable := true } } "UPS")) :=
  ⟨(execute_invalidates_token_on_auth_error _ _ "tokA" _ rfl).2.1,
   (execute_invalidates_token_on_auth_error _ _ "tokA" _ rfl).2.2.1⟩

/-- While a refresh is in flight, further concurrent arrivals with an
invalid cache only join the waiter list: the cache, the pending flag and
the fetch count are untouched and nobody resolves immediately. -/
theorem runConcurrentCalls_pending (l : List (Nat × Int)) :
    ∀ st : AuthState, st.pending = true →
      (∀ a ∈ l, cacheValid st.cache a.2 = false) →
      runConcurrentCalls st l =
        ({ st with waiters := (l.map Prod.fst).reverse ++ st.waiters }, []) := by
  induction l with
  | nil =>
    intro st _ _
    simp [runConcurrentCalls]
  | cons a rest ih =>
    intro st hp hinv
    obtain ⟨c, t⟩ := a
    have hinv1 : cacheValid st.cache t = false := hinv (c, t) (by simp)
    have hstep : getAccessTokenStep st t c =
        ({ st with waiters := c :: st.waiters }, none) := by
      simp [getAccessTokenStep, hinv1, startOrJoinRefresh, hp]
    simp only [runConcurrentCalls, hstep]
    rw [ih { st with waiters := c :: st.waiters } hp
      (by intro b hb; exact hinv b (by simp [hb]))]
    simp [List.append_assoc]

/-- C1: when N ≥ 1 logically concurrent getAccessToken calls all arrive
with an invalid or absent cached token before the in-flight refresh
settles, none resolves early, exactly one upstream credential exchange is
started, and at settlement all N calls resolve with the same outcome (the
token, or the failure) of that single refresh. -/
theorem getAccessToken_concurrent_refresh_dedup
    (st0 : AuthState) (arrivals : List (Nat × Int)) (settleTime : Int)
    (outcome : ExchangeOutcome)
    (hne : arrivals ≠ [])
    (hpending : st0.pending = false)
    (hwaiters : st0.waiters = [])
    (hinvalid : ∀ a ∈ arrivals, cacheValid st0.cache a.2 = false) :
    (runConcurrentCalls st0 arrivals).2 = [] ∧
    (runConcurrentCalls st0 arrivals).1.fetchCount = st0.fetchCount + 1 ∧
    (settleRefresh (runConcurrentCalls st0 arrivals).1 settleTime outcome).2.length =
      arrivals.length ∧
    (∀ p ∈ (settleRefresh (runConcurrentCalls st0 arrivals).1 settleTime outcome).2,
      p.2 = (fetchToken settleTime st0.cache outcome).2) := by
  match arrivals, hne with
  | (c, t) :: rest, _ =>
    have hinv1 : cacheValid st0.cache t = false := hinvalid (c, t) (by simp)
    have hstep : getAccessTokenStep st0 t c =
        ({ st0 with
            pending := true
            waiters := c :: st0.waiters
            fetchCount := st0.fetchCount + 1 }, none) := by
      simp [getAccessTokenStep, hinv1, startOrJoinRefresh, hpending]
    have hrun : runConcurrentCalls st0 ((c, t) :: rest) =
        ({ st0 with
            pending := true
            waiters := (rest.map Prod.fst).reverse ++ c :: st0.waiters
            fetchCount := st0.fetchCount + 1 }, []) := by
      simp only [runConcurrentCalls, hstep]
      rw [runConcurrentCalls_pending rest
        { st0 with
          pending := true
          waiters := c :: st0.waiters
          fetchCount := st0.fetchCount + 1 } rfl
        (by intro b hb; exact hinvalid b (by simp [hb]))]
      simp
    rw [hrun]
    refine ⟨rfl, rfl, ?_, ?_⟩
    · simp [settleRefresh, hwaiters]
    · intro p hp
      simp only [settleRefresh, List.mem_map] at hp
      obtain ⟨w, _, hw⟩ := hp
      rw [← hw]

/-- Witness for C1: three concurrent calls with an empty cache — one
exchange, and all three resolve with the refreshed token. -/
theorem getAccessToken_concurrent_refresh_dedup_witness :
    (runConcurrentCalls
        { cache := none, pending := false, waiters := [], fetchCount := 0 }
        [(0, 1000), (1, 1000), (2, 1001)]).2 = [] ∧
    (runConcurrentCalls
        { cache := none, pending := false, waiters := [], fetchCount := 0 }
        [(0, 1000), (1, 1000), (2, 1001)]).1.fetchCount = 0 + 1 ∧
    (settleRefresh
        (runConcurrentCalls
          { cache := none, pending := false, waiters := [], fetchCount := 0 }
          [(0, 1000), (1, 1000), (2, 1001)]).1 2000
        (.success { access_token := some "tokA", token_type := some "Bearer"
                    issued_at := none, expires_in := some "3600"
                    status := some "approved" })).2.length =
      ([(0, 1000), (1, 1000), (2, 1001)] : List (Nat × Int)).length ∧
    (∀ p ∈ (settleRefresh
        (runConcurrentCalls
          { cache := none, pending := false, waiters := [], fetchCount := 0 }
          [(0, 1000), (1, 1000), (2, 1001)]).1 2000
        (.success { access_token := some "tokA", token_type := some "Bearer"
                    issued_at := none, expires_in := some "3600"
                    status := some "approved" })).2,
      p.2 = (fetchToken 2000 none
        (.success { access_token := some "tokA", token_type := some "Bearer"
                    issued_at := none, expires_in := some "3600"
                    status := some "approved" })).2) :=
  getAccessToken_concurrent_refresh_dedup
    { cache := none, pending := false, waiters := [], fetchCount := 0 }
    [(0, 1000), (1, 1000), (2, 1001)] 2000
    (.success { access_token := some "tokA", token_type := some "Bearer"
                issued_at := none, expires_in := some "3600"
                status := some "approved" })
    (by decide) rfl rfl (by decide)

/-! ### Substring helper lemmas for the validation-message claims -/

theorem containsSeg_self (l : List Char) : containsSeg l l :=
  ⟨[], [], by simp⟩

theorem containsSeg_append_left {n h : List Char} (x : List Char)
    (hc : containsSeg n h) : containsSeg n (x ++ h) := by
  obtain ⟨pre, post, rfl⟩ := hc
  exact ⟨x ++ pre, post, by simp⟩

theorem containsSeg_append_right {n h : List Char} (x : List Char)
    (hc : containsSeg n h) : containsSeg n (h ++ x) := by
  obtain ⟨pre, post, rfl⟩ := hc
  exact ⟨pre, post ++ x, by simp⟩

theorem containsSeg_trans {a b c : List Char}
    (h1 : containsSeg a b) (h2 : containsSeg b c) : containsSeg a c := by
  obtain ⟨p1, q1, rfl⟩ := h1
  obtain ⟨p2, q2, rfl⟩ := h2
  exact ⟨p2 ++ p1, q1 ++ q2, by simp⟩

theorem strContainsSub_cat_left (n x : String) : strContainsSub n (n ++ x) := by
  refine ⟨[], x.data, ?_⟩
  simp

theorem strContainsSub_cat_right (x n : String) : strContainsSub n (x ++ n) := by
  refine ⟨x.data, [], ?_⟩
  simp

theorem mem_joinSep (sep : String) (a : String) :
    ∀ l : List String, a ∈ l → containsSeg a.data (joinSep sep l).data := by
  intro l
  induction l with
  | nil => intro h; cases h
  | cons b rest ih =>
    intro hmem
    cases rest with
    | nil =>
      have : a = b := by simpa using hmem
      subst this
      exact containsSeg_self _
    | cons b2 rest2 =>
      rcases List.mem_cons.mp hmem with h | h
      · subst h
        show containsSeg a.data (a ++ sep ++ joinSep sep (b2 :: rest2)).data
        simp only [String.data_append]
        rw [List.append_assoc]
        exact containsSeg_append_right _ (containsSeg_self _)
      · show containsSeg a.data (b ++ sep ++ joinSep sep (b2 :: rest2)).data
        simp only [String.data_append]
        exact containsSeg_append_left _ (ih h)

/-- An issue produced by the schema appears, fully rendered, inside the
ValidationError message. -/
theorem issue_in_validation_message (r : RateRequest) (i : ZodIssue)
    (hmem : i ∈ validateRateRequest r) :
    strContainsSub (renderIssue i) (invalidRateRequestError r).message := by
  have h1 : renderIssue i ∈ (validateRateRequest r).map renderIssue :=
    List.mem_map_of_mem renderIssue hmem
  have h2 : containsSeg (renderIssue i).data
      (formatZodError (validateRateRequest r)).data :=
    mem_joinSep "; " (renderIssue i) _ h1
  show containsSeg (renderIssue i).data
    ("Invalid rate request: " ++ formatZodError (validateRateRequest r)).data
  simp only [String.data_append]
  exact containsSeg_append_left _ h2

/-- Some package with non-positive weight yields a weight issue somewhere
in the indexed package issues. -/
theorem weight_issue_mem (p : Package) (hw : p.weight.value ≤ 0) :
    ∀ (i : Nat) (ps : List Package), p ∈ ps →
      ∃ j : Nat, (⟨["packages", toString j, "weight", "value"],
        "Weight must be positive"⟩ : ZodIssue) ∈ validatePackagesItems i ps := by
  intro i ps
  induction ps generalizing i with
  | nil => intro h; cases h
  | cons q rest ih =>
    intro hmem
    rcases List.mem_cons.mp hmem with h | h
    · subst h
      refine ⟨i, ?_⟩
      simp only [validatePackagesItems, List.mem_append]
      left
      simp [validatePackage, checkPositive, hw]
    · obtain ⟨j, hj⟩ := ih (i + 1) h
      refine ⟨j, ?_⟩
      simp only [validatePackagesItems, List.mem_append]
      right
      exact hj

/-- C9: UpsCarrierClient.getRates validates against the schema before any
token acquisition or network activity (the result on an invalid request is
a ValidationError independent of the rating collaborator): zero packages, a
country code that is not exactly 2 characters, and a non-positive weight
each fail with a non-retryable ValidationError whose message names the
offending field and constraint, while a schema-valid request is passed on
to the rating operation. -/
theorem getRates_validates_before_rating
    (exec : RateRequest → Except CarrierError RateResponse) (r : RateRequest) :
    (r.packages = [] →
      upsClientGetRates exec r = .error (invalidRateRequestError r) ∧
      (invalidRateRequestError r).code = .VALIDATION_ERROR ∧
      (invalidRateRequestError r).details.retryable = false ∧
      strContainsSub "packages: At least one package is required"
        (invalidRateRequestError r).message) ∧
    (r.origin.countryCode.length ≠ 2 →
      upsClientGetRates exec r = .error (invalidRateRequestError r) ∧
      strContainsSub "origin.countryCode: Country code must be exactly 2 characters"
        (invalidRateRequestError r).message) ∧
    ((∃ p ∈ r.packages, p.weight.value ≤ 0) →
      upsClientGetRates exec r = .error (invalidRateRequestError r) ∧
      strContainsSub "packages" (invalidRateRequestError r).message ∧
      strContainsSub "Weight must be positive" (invalidRateRequestError r).message) ∧
    (validateRateRequest r = [] → upsClientGetRates exec r = exec r) := by
  have herr : ∀ i : ZodIssue, i ∈ validateRateRequest r →
      upsClientGetRates exec r = .error (invalidRateRequestError r) := by
    intro i hi
    have hne : validateRateRequest r ≠ [] := List.ne_nil_of_mem hi
    simp [upsClientGetRates, hne]
  refine ⟨?_, ?_, ?_, ?_⟩
  · intro hp
    have hmem : (⟨["packages"], "At least one package is required"⟩ : ZodIssue) ∈
        validateRateRequest r := by
      simp only [validateRateRequest, List.mem_append]
      left; left; left; right
      simp [hp]
    refine ⟨herr _ hmem, rfl, rfl, ?_⟩
    have := issue_in_validation_message r _ hmem
    simpa [renderIssue, joinSep] using this
  · intro hc
    have hmem : (⟨["origin", "countryCode"],
        "Country code must be exactly 2 characters"⟩ : ZodIssue) ∈
        validateRateRequest r := by
      simp only [validateRateRequest, List.mem_append]
      left; left; left; left; left
      simp only [validateAddress, List.mem_append]
      right
      simp [checkExactLen, hc]
    refine ⟨herr _ hmem, ?_⟩
    have := issue_in_validation_message r _ hmem
    simpa [renderIssue, joinSep] using this
  · rintro ⟨p, hp, hw⟩
    obtain ⟨j, hj⟩ := weight_issue_mem p hw 0 r.packages hp
    have hmem : (⟨["packages", toString j, "weight", "value"],
        "Weight must be positive"⟩ : ZodIssue) ∈ validateRateRequest r := by
      simp only [validateRateRequest, List.mem_append]
      left; right
      exact hj
    have hfull := issue_in_validation_message r _ hmem
    refine ⟨herr _ hmem, ?_, ?_⟩
    · refine containsSeg_trans ?_ hfull
      refine ⟨[],
        (("." : String) ++ toString j ++ ".weight.value: Weight must be positive").data, ?_⟩
      simp [renderIssue, joinSep, String.data_append]
    · refine containsSeg_trans ?_ hfull
      refine ⟨(joinSep "." ["packages", toString j, "weight", "value"] ++ ": ").data,
        [], ?_⟩
      simp [renderIssue, joinSep, String.data_append]
  · intro hv
    simp [upsClientGetRates, hv]

/-- Witness for C9: a request with no packages and a 3-character country
code is rejected with a ValidationError naming the packages constraint, and
an exec stub is never consulted. -/
theorem getRates_validates_before_rating_witness :
    upsClientGetRates (fun _ => .ok { quotes := [] })
        { origin :=
            { name := none, addressLines := ["10 Main St"], city := "Austin"
              stateProvinceCode := none, postalCode := "78701"
              countryCode := "USA", residential := none }
          destination :=
            { name := none, addressLines := ["2 Oak Ave"], city := "Dallas"
              stateProvinceCode := none, postalCode := "75201"
              countryCode := "US", residential := none }
          packages := []
          serviceCode := none
          shipperAccountNumber := none } =
      .error (invalidRateRequestError
        { origin :=
            { name := none, addressLines := ["10 Main St"], city := "Austin"
              stateProvinceCode := none, postalCode := "78701"
              countryCode := "USA", residential := none }
          destination :=
            { name := none, addressLines := ["2 Oak Ave"], city := "Dallas"
              stateProvinceCode := none, postalCode := "75201"
              countryCode := "US", residential := none }
          packages := []
          serviceCode := none
          shipperAccountNumber := none }) ∧
    (invalidRateRequestError
        { origin :=
            { name := none, addressLines := ["10 Main St"], city := "Austin"
              stateProvinceCode := none, postalCode := "78701"
              countryCode := "USA", residential := none }
          destination :=
            { name := none, addressLines := ["2 Oak Ave"], city := "Dallas"
              stateProvinceCode := none, postalCode := "75201"
              countryCode := "US", residential := none }
          packages := []
          serviceCode := none
          shipperAccountNumber := none }).code = .VALIDATION_ERROR :=
  ⟨((getRates_validates_before_rating _ _).1 rfl).1,
   ((getRates_validates_before_rating (fun _ => .ok { quotes := [] }) _).1 rfl).2.1⟩

/-! ### Lemmas for the shopRates aggregation claim -/

/-- Quotes contributed by one settled fan-out task. -/
def quotesOf : SettledRateCall → List RateQuote
  | .fulfilled _ resp => resp.quotes
  | .rejected _ => []

/-- Error entry contributed by one settled fan-out task. -/
def errorEntryOf : SettledRateCall → Option (String × CarrierError)
  | .fulfilled _ _ => none
  | .rejected r =>
    some ((rejectionError r).details.carrier.getD "UNKNOWN", rejectionError r)

/-- Ordering of two quotes by finite total-charge amounts. -/
def quoteAmountLe (a b : RateQuote) : Prop :=
  ∃ x y : ℚ, a.totalCharges.amount = .finite x ∧
    b.totalCharges.amount = .finite y ∧ x ≤ y

/-- Boolean filter selecting the quotes with a given finite amount. -/
def amountFilter (p : ℚ) (q : RateQuote) : Bool :=
  decide (q.totalCharges.amount = .finite p)

theorem not_nan_finite {a : JsNum} (h : a ≠ .nan) : ∃ x : ℚ, a = .finite x := by
  cases a with
  | finite q => exact ⟨q, rfl⟩
  | nan => exact absurd rfl h

theorem collectQuotes_eq (settled : List SettledRateCall) :
    collectQuotes settled = (settled.map quotesOf).flatten := by
  induction settled with
  | nil => rfl
  | cons s rest ih => cases s <;> simp [collectQuotes, quotesOf, ih]

theorem collectErrors_eq (settled : List SettledRateCall) :
    collectErrors settled = settled.filterMap errorEntryOf := by
  induction settled with
  | nil => rfl
  | cons s rest ih => cases s <;> simp [collectErrors, errorEntryOf, ih]

theorem sortInsert_perm (x : RateQuote) (l : List RateQuote) :
    (sortInsert x l).Perm (x :: l) := by
  induction l with
  | nil => simp [sortInsert]
  | cons y l ih =>
    by_cases h : quoteKeepsBefore x y
    · simp [sortInsert, h]
    · simp only [sortInsert, if_neg h]
      exact (ih.cons y).trans (List.Perm.swap x y l)

theorem sortQuotes_perm (l : List RateQuote) : (sortQuotes l).Perm l := by
  induction l with
  | nil => simp [sortQuotes]
  | cons x l ih =>
    exact (sortInsert_perm x (sortQuotes l)).trans (ih.cons x)

theorem pairwise_sortInsert (x : RateQuote) (l : List RateQuote)
    (hx : x.totalCharges.amount ≠ .nan)
    (hl : ∀ q ∈ l, q.totalCharges.amount ≠ .nan)
    (hp : l.Pairwise quoteAmountLe) :
    (sortInsert x l).Pairwise quoteAmountLe := by
  induction l with
  | nil => simp [sortInsert]
  | cons y l ih =>
    obtain ⟨fx, hfx⟩ := not_nan_finite hx
    obtain ⟨fy, hfy⟩ := not_nan_finite (hl y (by simp))
    rcases List.pairwise_cons.mp hp with ⟨hyall, hpl⟩
    by_cases h : quoteKeepsBefore x y
    · have hxy : fx ≤ fy := by
        simpa [quoteKeepsBefore, hfx, hfy] using h
      simp only [sortInsert, if_pos h]
      refine List.pairwise_cons.mpr ⟨?_, hp⟩
      intro z hz
      rcases List.mem_cons.mp hz with rfl | hz
      · exact ⟨fx, fy, hfx, hfy, hxy⟩
      · obtain ⟨a, b, hya, hzb, hab⟩ := hyall z hz
        have ha : a = fy := by
          rw [hya] at hfy
          injection hfy
        exact ⟨fx, b, hfx, hzb, le_trans hxy (ha ▸ hab)⟩
    · have hyx : fy ≤ fx := by
        have hnot : ¬ (fx ≤ fy) := by
          simpa [quoteKeepsBefore, hfx, hfy] using h
        exact le_of_lt (not_le.mp hnot)
      simp only [sortInsert, if_neg h]
      refine List.pairwise_cons.mpr
        ⟨?_, ih (fun q hq => hl q (by simp [hq])) hpl⟩
      intro z hz
      have hz2 : z = x ∨ z ∈ l := by
        simpa using (sortInsert_perm x l).mem_iff.mp hz
      rcases hz2 with rfl | hz2
      · exact ⟨fy, fx, hfy, hfx, hyx⟩
      · exact hyall z hz2

theorem pairwise_sortQuotes (l : List RateQuote)
    (hl : ∀ q ∈ l, q.totalCharges.amount ≠ .nan) :
    (sortQuotes l).Pairwise quoteAmountLe := by
  induction l with
  | nil => simp [sortQuotes]
  | cons x l ih =>
    refine pairwise_sortInsert x (sortQuotes l) (hl x (by simp)) ?_
      (ih fun q hq => hl q (by simp [hq]))
    intro q hq
    exact hl q (by simp [(sortQuotes_perm l).mem_iff.mp hq])

theorem filter_sortInsert (p : ℚ) (x : RateQuote) (l : List RateQuote)
    (hx : x.totalCharges.amount ≠ .nan)
    (hl : ∀ q ∈ l, q.totalCharges.amount ≠ .nan) :
    (sortInsert x l).filter (amountFilter p) =
      if amountFilter p x then x :: l.filter (amountFilter p)
      else l.filter (amountFilter p) := by
  induction l with
  | nil => simp [sortInsert, List.filter_cons]
  | cons y l ih =>
    by_cases h : quoteKeepsBefore x y
    · simp only [sortInsert, if_pos h]
      rw [List.filter_cons]
    · obtain ⟨fx, hfx⟩ := not_nan_finite hx
      obtain ⟨fy, hfy⟩ := not_nan_finite (hl y (by simp))
      have hlt : fy < fx := by
        have hnot : ¬ (fx ≤ fy) := by
          simpa [quoteKeepsBefore, hfx, hfy] using h
        exact not_le.mp hnot
      simp only [sortInsert, if_neg h]
      rw [List.filter_cons, ih (fun q hq => hl q (by simp [hq]))]
      by_cases hay : amountFilter p y
      · have hyp : fy = p := by
          have := of_decide_eq_true hay
          rw [hfy] at this
          injection this
        have hax : amountFilter p x = false := by
          simp only [amountFilter, hfx, decide_eq_false_iff_not]
          intro heq
          injection heq with heq
          rw [hyp] at hlt
          rw [heq] at hlt
          exact absurd hlt (lt_irrefl p)
        simp [List.filter_cons, hay, hax]
      · simp only [List.filter_cons]
        by_cases hax : amountFilter p x <;> simp [hay, hax]

theorem filter_sortQuotes (p : ℚ) (l : List RateQuote)
    (hl : ∀ q ∈ l, q.totalCharges.amount ≠ .nan) :
    (sortQuotes l).filter (amountFilter p) = l.filter (amountFilter p) := by
  induction l with
  | nil => simp [sortQuotes]
  | cons x l ih =>
    show (sortInsert x (sortQuotes l)).filter (amountFilter p) = _
    rw [filter_sortInsert p x (sortQuotes l) (hl x (by simp))
      (fun q hq => hl q (by simp [(sortQuotes_perm l).mem_iff.mp hq]))]
    rw [ih fun q hq => hl q (by simp [hq])]
    rw [List.filter_cons]

/-- C3: on a non-empty registry, shopRates returns (never throws) a result
whose quote list is a permutation of the concatenation of all fulfilled
carriers' quotes (a failure never removes another carrier's quotes), is
sorted ascending by total-charge amount in adjacent pairs, and is stable
(quotes of equal amount keep their fan-out order — the filtered sublist at
every amount is unchanged); the error list has exactly one entry per
rejected carrier, in fan-out order, labelled with the error's own
details.carrier or "UNKNOWN" when absent. -/
theorem shopRates_merges_sorts_and_isolates_failures
    (settled : List SettledRateCall)
    (hne : settled ≠ [])
    (hfin : ∀ q ∈ (settled.map quotesOf).flatten, q.totalCharges.amount ≠ .nan) :
    ∃ result, shopRates settled = .ok result ∧
      result.quotes.Perm ((settled.map quotesOf).flatten) ∧
      List.Chain' quoteAmountLe result.quotes ∧
      (∀ p : ℚ, result.quotes.filter (amountFilter p) =
        ((settled.map quotesOf).flatten).filter (amountFilter p)) ∧
      result.errors = settled.filterMap errorEntryOf := by
  have hj : collectQuotes settled = (settled.map quotesOf).flatten :=
    collectQuotes_eq settled
  have hfin2 : ∀ q ∈ collectQuotes settled, q.totalCharges.amount ≠ .nan := by
    rw [hj]; exact hfin
  have hempty : settled.isEmpty = false := by
    cases settled with
    | nil => exact absurd rfl hne
    | cons a l => rfl
  have hmain : shopRates settled =
      .ok { quotes := sortQuotes (collectQuotes settled)
            errors := collectErrors settled } := by
    simp [shopRates, hempty]
  refine ⟨_, hmain, ?_, ?_, ?_, ?_⟩
  · show (sortQuotes (collectQuotes settled)).Perm _
    rw [← hj]
    exact sortQuotes_perm _
  · exact (pairwise_sortQuotes _ hfin2).chain'
  · intro p
    show (sortQuotes (collectQuotes settled)).filter (amountFilter p) = _
    rw [filter_sortQuotes p _ hfin2, hj]
  · exact collectErrors_eq settled

/-- A minimal quote literal used by the C3 witness. -/
def sampleQuote (code : String) (amt : ℚ) : RateQuote :=
  { carrier := "UPS"
    serviceCode := code
    serviceName := "UPS Service " ++ code
    totalCharges := { currency := "USD", amount := .finite amt }
    transportationCharges := { currency := "USD", amount := .finite amt }
    serviceOptionsCharges := none
    billingWeight := none
    guaranteedDelivery := false
    estimatedDeliveryDays := none
    warnings := none }

/-- The settled fan-out of the C3 witness: one healthy carrier with three
quotes (out of price order) and one carrier that failed. -/
def sampleSettled : List SettledRateCall :=
  [.fulfilled "UPS"
     { quotes := [sampleQuote "01" 45, sampleQuote "03" 11, sampleQuote "02" 24] },
   .rejected (.carrierFailure
     { code := .NETWORK_ERROR
       message := "Network error: connect ECONNREFUSED"
       details := { carrier := some "FEDEX", retryable := true } })]

/-- Witness for C3 at sampleSettled. -/
theorem shopRates_merges_sorts_and_isolates_failures_witness :
    ∃ result, shopRates sampleSettled = .ok result ∧
      result.quotes.Perm ((sampleSettled.map quotesOf).flatten) ∧
      List.Chain' quoteAmountLe result.quotes ∧
      (∀ p : ℚ, result.quotes.filter (amountFilter p) =
        ((sampleSettled.map quotesOf).flatten).filter (amountFilter p)) ∧
      result.errors = sampleSettled.filterMap errorEntryOf :=
  shopRates_merges_sorts_and_isolates_failures sampleSettled
    (by simp [sampleSettled]) (by decide)

end CarrierService
